import Mathlib

/-!
# Verification of the Private Vault core (`src/utils/vault.js`)

A shallow embedding of the vault subsystem: the URL-safe base64 codec
(`b64u` / `b64uToBuf`, over byte lists, with `btoa`/`atob` modelled from
RFC 4648 as the browser implements them), a symbolic model of the WebCrypto
primitives (PBKDF2 key derivation and AES-GCM authenticated encryption),
and the vault state machine (metadata store, session DEK cache, lifecycle
operations, entry encryption).

Symbolic-crypto idealisation: `crypto.subtle` keys and ciphertexts are
modelled as first-class records of the inputs that produced them; AES-GCM
decryption succeeds exactly when key, IV and associated data match the ones
used at encryption (authenticated-encryption ideal functionality), and
PBKDF2 (`deriveKEK`) is collision-free in its inputs.  Raw-imported keys
carry their `extractable` attribute and `exportKey` rejects non-extractable
keys, as WebCrypto mandates.  Randomness (`crypto.getRandomValues`) is
passed to each operation as explicit arguments.  Errors are the exact
`Error` message strings thrown by the source; WebCrypto failures are the
DOMException names (`"OperationError"` for an AES-GCM authentication
failure, `"InvalidAccessError"` for exporting a non-extractable key).
-/

namespace Vault

/-! ## Byte-level base64 (`btoa` / `atob`) and the URL-safe codec

Bytes and character codes are `Nat`s (`< 256` resp. ASCII codes); strings
at this layer are lists of character codes, exactly the values
`String.fromCharCode`/`charCodeAt` traffic in inside `b64u`/`b64uToBuf`. -/

/-- The standard base64 alphabet (RFC 4648): index `0..63` to ASCII code. -/
def base64Char (n : Nat) : Nat :=
  if n < 26 then 65 + n
  else if n < 52 then 97 + (n - 26)
  else if n < 62 then 48 + (n - 52)
  else if n = 62 then 43
  else 47

/-- Inverse alphabet lookup (only ever applied to alphabet characters). -/
def base64Inv (c : Nat) : Nat :=
  if 65 ≤ c ∧ c ≤ 90 then c - 65
  else if 97 ≤ c ∧ c ≤ 122 then c - 97 + 26
  else if 48 ≤ c ∧ c ≤ 57 then c - 48 + 52
  else if c = 43 then 62
  else 63

/-- `btoa`: base64-encode a byte list, processing 3 bytes into 4 characters,
with `'='` (61) padding for a trailing group of 1 or 2 bytes. -/
def btoa : List Nat → List Nat
  | [] => []
  | [a] => [base64Char (a / 4), base64Char (a % 4 * 16), 61, 61]
  | [a, b] => [base64Char (a / 4), base64Char (a % 4 * 16 + b / 16),
               base64Char (b % 16 * 4), 61]
  | a :: b :: c :: rest =>
      base64Char (a / 4) :: base64Char (a % 4 * 16 + b / 16) ::
      base64Char (b % 16 * 4 + c / 64) :: base64Char (c % 64) :: btoa rest

/-- `atob`: base64-decode, 4 characters to 3 bytes, honouring `'='` padding
in the last group (as the browser `atob` does on valid base64 input). -/
def atob : List Nat → List Nat
  | c0 :: c1 :: c2 :: c3 :: rest =>
      if c2 = 61 then
        [base64Inv c0 * 4 + base64Inv c1 / 16]
      else if c3 = 61 then
        [base64Inv c0 * 4 + base64Inv c1 / 16,
         base64Inv c1 % 16 * 16 + base64Inv c2 / 4]
      else
        (base64Inv c0 * 4 + base64Inv c1 / 16) ::
        (base64Inv c1 % 16 * 16 + base64Inv c2 / 4) ::
        (base64Inv c2 % 4 * 64 + base64Inv c3) :: atob rest
  | _ => []

/-- The global replacement of `'+'` by `'-'` and of `'/'` by `'_'`,
on one character code. -/
def toUrlSafe (c : Nat) : Nat := if c = 43 then 45 else if c = 47 then 95 else c

/-- The global replacement of `'-'` by `'+'` and of `'_'` by `'/'`,
on one character code. -/
def fromUrlSafe (c : Nat) : Nat := if c = 45 then 43 else if c = 95 then 47 else c

/-- The replacement of the trailing run of `'='` (61) by nothing. -/
def stripTrailingEq (l : List Nat) : List Nat :=
  (l.reverse.dropWhile (· == 61)).reverse

/-- `while (s.length % 4) s += '='`: pad with `'='` to a multiple of 4. -/
def padEq (l : List Nat) : List Nat :=
  l ++ List.replicate ((4 - l.length % 4) % 4) 61

/-- `b64u(buf)`: base64-encode, substitute `'-'`/`'_'`, strip padding. -/
def b64u (bytes : List Nat) : List Nat :=
  stripTrailingEq ((btoa bytes).map toUrlSafe)

/-- `b64uToBuf(s)`: undo the substitution, re-pad, base64-decode. -/
def b64uToBuf (s : List Nat) : List Nat :=
  atob (padEq (s.map fromUrlSafe))

/-! ## Symbolic WebCrypto layer

CryptoKeys and AES-GCM ciphertexts are records of the inputs that produced
them; decryption succeeds iff key, IV and associated data coincide with the
encryption's (ideal authenticated encryption), and `deriveKEK` (PBKDF2) is
collision-free.  `TextEncoder`/`TextDecoder` is a bijection between strings
and their UTF-8 bytes, reflected by the `Plain` sum: a plaintext entering
the cipher is either raw bytes or the encoding of a string. -/

/-- A plaintext buffer: raw bytes, or the UTF-8 encoding of a string. -/
inductive Plain where
  | bytes (b : List Nat)
  | str (s : String)
deriving DecidableEq

/-- The byte content of a plaintext buffer (`new Uint8Array(buf)`). -/
def Plain.toBytes : Plain → List Nat
  | .bytes b => b
  | .str s => s.toUTF8.toList.map (fun u => u.toNat)

/-- `TextDecoder.decode` on a plaintext buffer.  Decoding arbitrary raw
bytes as UTF-8 is never exercised by the vault's own ciphertexts, whose
entry bodies always originate from `TextEncoder.encode`. -/
def textDecode : Plain → String
  | .str s => s
  | .bytes _ => ""

/-- An AES-GCM `CryptoKey`: PBKDF2-derived (`deriveKey`) from a secret,
decoded salt bytes and an iteration count, or imported (`importKey`) from
raw key bytes. -/
inductive GcmKey where
  | derived (secret : String) (salt : List Nat) (iterations : Nat)
  | raw (bytes : List Nat)
deriving DecidableEq

/-- `deriveKEK(passphrase, saltB64u, iterations)`: PBKDF2-SHA-256 over the
passphrase and the `b64uToBuf`-decoded salt. -/
def deriveKEK (passphrase : String) (saltB64u : List Nat) (iterations : Nat) : GcmKey :=
  .derived passphrase (b64uToBuf saltB64u) iterations

/-- A symbolic AES-GCM ciphertext: the record of its production inputs. -/
structure GcmCiphertext where
  key : GcmKey
  iv : List Nat
  aad : String
  pt : Plain
deriving DecidableEq

/-- `crypto.subtle.encrypt({name:'AES-GCM', iv, additionalData}, key, pt)`. -/
def subtleEncrypt (key : GcmKey) (iv : List Nat) (aad : String) (pt : Plain) :
    GcmCiphertext :=
  ⟨key, iv, aad, pt⟩

/-- `crypto.subtle.decrypt`: succeeds with the original plaintext iff key,
IV and associated data all match; otherwise throws the `OperationError`
DOMException (authentication failure). -/
def subtleDecrypt (key : GcmKey) (iv : List Nat) (aad : String)
    (ct : GcmCiphertext) : Except String Plain :=
  if ct.key = key ∧ ct.iv = iv ∧ ct.aad = aad then .ok ct.pt
  else .error "OperationError"

/-- The `{ivB64, ctB64}` pair returned by `aesGcmEncrypt`; the base64url
layer, verified separately as lossless, is kept transparent. -/
structure Wrap where
  iv : List Nat
  ct : GcmCiphertext
deriving DecidableEq

/-- `aesGcmEncrypt(key, plaintextBuf, aadStr)` with its fresh IV made an
explicit argument. -/
def aesGcmEncrypt (key : GcmKey) (iv : List Nat) (pt : Plain) (aadStr : String) :
    Wrap :=
  ⟨iv, subtleEncrypt key iv aadStr pt⟩

/-- `aesGcmDecrypt(key, ivB64, ctB64, aadStr)`. -/
def aesGcmDecrypt (key : GcmKey) (ivB64 : List Nat) (ct : GcmCiphertext)
    (aadStr : String) : Except String Plain :=
  subtleDecrypt key ivB64 aadStr ct

/-- `wrapDEKBytes(kek, dekBytes, aad)`. -/
def wrapDEKBytes (kek : GcmKey) (iv : List Nat) (dekBytes : List Nat)
    (aad : String) : Wrap :=
  aesGcmEncrypt kek iv (.bytes dekBytes) aad

/-- `unwrapDEKBytes(kek, wrap, aad)`: decrypt and view as bytes. -/
def unwrapDEKBytes (kek : GcmKey) (w : Wrap) (aad : String) :
    Except String (List Nat) :=
  (aesGcmDecrypt kek w.iv w.ct aad).map Plain.toBytes

/-- A raw-imported AES-GCM `CryptoKey` as the session DEK holder: the key
material together with the key's `extractable` attribute, fixed at import
time. -/
structure DekKey where
  bytes : List Nat
  extractable : Bool
deriving DecidableEq

/-- `crypto.subtle.importKey('raw', bytes, 'AES-GCM', extractable, usages)`. -/
def importKey (bytes : List Nat) (extractable : Bool) : DekKey :=
  ⟨bytes, extractable⟩

/-- `crypto.subtle.exportKey('raw', key)`: returns the raw key bytes for an
extractable key and rejects with the `InvalidAccessError` DOMException for
a non-extractable one (WebCrypto, every conforming implementation). -/
def exportKey (k : DekKey) : Except String (List Nat) :=
  if k.extractable then .ok k.bytes else .error "InvalidAccessError"

/-! ## Recovery code rendering -/

/-- One uppercase hex digit (the source lowercases via `toString(16)` and
then applies `toUpperCase()`; the composition is rendered directly). -/
def hexChar (n : Nat) : Char :=
  if n < 10 then Char.ofNat (48 + n) else Char.ofNat (65 + (n - 10))

/-- One byte as two hex digits (`toString(16).padStart(2,'0')`). -/
def byteHex (v : Nat) : List Char := [hexChar (v / 16), hexChar (v % 16)]

/-- `.match(/.{1,4}/g)`: split into groups of four characters. -/
def chunk4 : List Char → List (List Char)
  | a :: b :: c :: d :: rest => [a, b, c, d] :: chunk4 rest
  | [] => []
  | l => [l]

/-- `.join('-')` over the groups. -/
def joinDash : List (List Char) → List Char
  | [] => []
  | [g] => g
  | g :: rest => g ++ '-' :: joinDash rest

/-- `generateRecoveryCode()`: 16 random bytes as dash-grouped uppercase hex
(`XXXX-XXXX-...`), from the random bytes passed explicitly. -/
def generateRecoveryCode (r : List Nat) : String :=
  String.mk (joinDash (chunk4 (r.map byteHex).flatten))

/-! ## Vault metadata and session state -/

/-- `meta.kdf`: passphrase KDF parameters; the salt is stored in its
`b64u`-encoded form, exactly as persisted. -/
structure KdfParams where
  algo : String
  hash : String
  iterations : Nat
  salt : List Nat
deriving DecidableEq

/-- `meta.recovery`: recovery-code KDF parameters. -/
structure RecoveryParams where
  iterations : Nat
  salt : List Nat
deriving DecidableEq

/-- `meta.wraps`: the two wrapped-DEK blobs. -/
structure Wraps where
  pass : Wrap
  recovery : Wrap
deriving DecidableEq

/-- `meta.cipher`. -/
structure CipherParams where
  algo : String
  ivBytes : Nat
  keyBits : Nat
deriving DecidableEq

/-- The persisted `VaultMetadata` object (localStorage key
`cp:vault:meta:v1`). -/
structure VaultMeta where
  enabled : Bool
  createdAt : Nat
  kdf : KdfParams
  recovery : RecoveryParams
  wraps : Wraps
  cipher : CipherParams
  idleMinutes : Nat
deriving DecidableEq

/-- The module state: the metadata store (`localStorage` slot), the cached
session DEK `_dek` (the imported `CryptoKey`, carrying its raw bytes and
extractability), `_idleMin`, and whether an idle auto-lock timeout is
currently scheduled (`_idleTimer`). -/
structure VaultState where
  store : Option VaultMeta
  dek : Option DekKey
  idleMin : Nat
  idleTimerSet : Bool
deriving DecidableEq

/-- `loadVaultMeta()`. -/
def loadVaultMeta (st : VaultState) : Option VaultMeta := st.store

/-- `saveVaultMeta(meta)`. -/
def saveVaultMeta (st : VaultState) (meta : VaultMeta) : VaultState :=
  { st with store := some meta }

/-- `isUnlocked()`. -/
def isUnlocked (st : VaultState) : Bool := st.dek.isSome

/-- `resetIdleTimer()`: only while unlocked, schedule the auto-lock. -/
def resetIdleTimer (st : VaultState) : VaultState :=
  if st.dek = none then st else { st with idleTimerSet := true }

/-- `lockNow()`: forget the DEK and clear the timer. -/
def lockNow (st : VaultState) : VaultState :=
  { st with dek := none, idleTimerSet := false }

/-- Result of a vault operation: the state after the call together with the
returned value, or the state after the call together with the message of
the thrown `Error` (DOMException name for WebCrypto failures). -/
inductive VRes (α : Type) where
  | ok (st : VaultState) (val : α)
  | err (st : VaultState) (msg : String)
deriving DecidableEq

/-- The fixed DEK-wrap associated-data string. -/
def dekAAD : String := "cp:vault:dek:v1"

/-! ## Lifecycle operations

Each operation takes the bytes that `crypto.getRandomValues` would produce
during the call as explicit arguments, in the order the source consumes
them, and `Date.now()` as `now`. -/

/-- `enableVaultFirstTime(passphrase)`. -/
def enableVaultFirstTime (st : VaultState) (passphrase : String) (now : Nat)
    (saltBytes dekBytes recBytes recSaltBytes passIv recIv : List Nat) :
    VRes String :=
  if passphrase = "" ∨ passphrase.length < 8 then
    .err st "Passphrase must be at least 8 characters."
  else
    let salt := b64u saltBytes
    let iterations := 150000
    let kek := deriveKEK passphrase salt iterations
    let dekKey := importKey dekBytes false
    let recoveryCode := generateRecoveryCode recBytes
    let recSalt := b64u recSaltBytes
    let recIters := 150000
    let recKek := deriveKEK recoveryCode recSalt recIters
    let passWrap := wrapDEKBytes kek passIv dekBytes dekAAD
    let recWrap := wrapDEKBytes recKek recIv dekBytes dekAAD
    let meta : VaultMeta :=
      { enabled := true
        createdAt := now
        kdf := ⟨"PBKDF2", "SHA-256", iterations, salt⟩
        recovery := ⟨recIters, recSalt⟩
        wraps := ⟨passWrap, recWrap⟩
        cipher := ⟨"AES-GCM", 12, 256⟩
        idleMinutes := st.idleMin }
    let st1 := { saveVaultMeta st meta with dek := some dekKey }
    .ok (resetIdleTimer st1) recoveryCode

/-- `unlockWithPassphrase(passphrase)`. -/
def unlockWithPassphrase (st : VaultState) (passphrase : String) : VRes Bool :=
  match loadVaultMeta st with
  | none => .err st "Vault not enabled."
  | some meta =>
    if meta.enabled = false then .err st "Vault not enabled."
    else
      let kek := deriveKEK passphrase meta.kdf.salt meta.kdf.iterations
      match unwrapDEKBytes kek meta.wraps.pass dekAAD with
      | .error _ => .err st "Wrong passphrase."
      | .ok dekBytes =>
        .ok (resetIdleTimer { st with dek := some (importKey dekBytes false) }) true

/-- `unlockWithRecoveryCode(code)`. -/
def unlockWithRecoveryCode (st : VaultState) (code : String) : VRes Bool :=
  match loadVaultMeta st with
  | none => .err st "Vault not enabled."
  | some meta =>
    if meta.enabled = false then .err st "Vault not enabled."
    else
      let recKek := deriveKEK code meta.recovery.salt meta.recovery.iterations
      match unwrapDEKBytes recKek meta.wraps.recovery dekAAD with
      | .error _ => .err st "Wrong Recovery Code."
      | .ok dekBytes =>
        .ok (resetIdleTimer { st with dek := some (importKey dekBytes false) }) true

/-- `changePassphrase(oldPass, newPass)`: unlock with the old passphrase
(this already mutates the session), validate the new one, export the
cached DEK's raw bytes, rewrap them under a fresh salt, persist.  The
export (`crypto.subtle.exportKey('raw', _dek)`) throws for a
non-extractable `_dek` — and every assignment to `_dek` in this module
imports it with `extractable = false` — so the persisting branch below is
dead code in the program; it is kept to mirror the source.  The two `_`
branches are unreachable through this API (a successful unlock always
leaves a stored metadata object and a cached DEK) and only discharge the
`meta`/`_dek` accesses. -/
def changePassphrase (st : VaultState) (oldPass newPass : String)
    (newSaltBytes newIv : List Nat) : VRes Bool :=
  match unlockWithPassphrase st oldPass with
  | .err st1 msg => .err st1 msg
  | .ok st1 _ =>
    if newPass = "" ∨ newPass.length < 8 then
      .err st1 "New passphrase must be at least 8 characters."
    else
      match loadVaultMeta st1, st1.dek with
      | some meta, some dk =>
        let newIterations := max 150000 meta.kdf.iterations
        let newSalt := b64u newSaltBytes
        let kek := deriveKEK newPass newSalt newIterations
        match exportKey dk with
        | .error e => .err st1 e
        | .ok raw =>
          let passWrap := wrapDEKBytes kek newIv raw dekAAD
          let updated :=
            { meta with
              kdf := ⟨"PBKDF2", "SHA-256", newIterations, newSalt⟩
              wraps := { meta.wraps with pass := passWrap } }
          .ok (saveVaultMeta st1 updated) true
      | _, _ => .err st1 "unreachable"

/-- `regenerateRecoveryCode()`: requires a cached DEK; exports its raw
bytes and rewraps them under a KEK derived from a fresh code and salt,
persisting the updated recovery parameters and wrap.  As in
`changePassphrase`, the export throws for the always-non-extractable
`_dek`, so the persisting branch is dead code in the program; it is kept
to mirror the source.  The `none` store branch is unreachable through this
API (a DEK is only ever cached alongside stored metadata). -/
def regenerateRecoveryCode (st : VaultState)
    (recBytes recSaltBytes recIv : List Nat) : VRes String :=
  match st.dek with
  | none => .err st "Unlock the vault first."
  | some dk =>
    match loadVaultMeta st with
    | some meta =>
      let recoveryCode := generateRecoveryCode recBytes
      let recSalt := b64u recSaltBytes
      let recIters := max 150000 meta.recovery.iterations
      let recKek := deriveKEK recoveryCode recSalt recIters
      match exportKey dk with
      | .error e => .err st e
      | .ok raw =>
        let recWrap := wrapDEKBytes recKek recIv raw dekAAD
        let updated :=
          { meta with
            recovery := ⟨recIters, recSalt⟩
            wraps := { meta.wraps with recovery := recWrap } }
        .ok (saveVaultMeta st updated) recoveryCode
    | none => .err st "unreachable"

/-! ## Entry encryption (table/id/version as AAD) -/

/-- The template literal `table:entryId:version`. -/
def entryAAD (table entryId : String) (version : Nat) : String :=
  table ++ ":" ++ entryId ++ ":" ++ toString version

/-- The `{ivB64, ctB64, ver}` record returned by `encryptEntryBody`. -/
structure EntryCipher where
  iv : List Nat
  ct : GcmCiphertext
  ver : Nat
deriving DecidableEq

/-- `encryptEntryBody({table, entryId, version, body})`; `body || ''` is
the identity on strings. -/
def encryptEntryBody (st : VaultState) (table entryId : String) (version : Nat)
    (body : String) (iv : List Nat) : VRes EntryCipher :=
  match st.dek with
  | none => .err st "Vault is locked."
  | some dk =>
    let aad := entryAAD table entryId version
    .ok st ⟨iv, subtleEncrypt (.raw dk.bytes) iv aad (.str body), version⟩

/-- `decryptEntryBody({table, entryId, version, ivB64, ctB64})`. -/
def decryptEntryBody (st : VaultState) (table entryId : String) (version : Nat)
    (iv : List Nat) (ct : GcmCiphertext) : VRes String :=
  match st.dek with
  | none => .err st "Vault is locked."
  | some dk =>
    let aad := entryAAD table entryId version
    match subtleDecrypt (.raw dk.bytes) iv aad ct with
    | .error e => .err st e
    | .ok pt => .ok st (textDecode pt)

/-! ## The dual-wrap consistency predicate -/

/-- Both stored wraps decrypt, under the KEKs correctly derived from the
corresponding secret with the stored salt and iteration count, to the same
32-byte DEK (and the metadata is enabled). -/
def WrapsConsistent (meta : VaultMeta) (pass recCode : String)
    (dek : List Nat) : Prop :=
  meta.enabled = true ∧ dek.length = 32 ∧
  unwrapDEKBytes (deriveKEK pass meta.kdf.salt meta.kdf.iterations)
    meta.wraps.pass dekAAD = .ok dek ∧
  unwrapDEKBytes (deriveKEK recCode meta.recovery.salt meta.recovery.iterations)
    meta.wraps.recovery dekAAD = .ok dek

deriving instance DecidableEq for Except

/-! ## Concrete sample data (for witnesses and counterexamples) -/

/-- The state at module load: nothing stored, locked, 15-minute idle. -/
def st0 : VaultState := ⟨none, none, 15, false⟩

def s16 : List Nat := List.replicate 16 1

def s16b : List Nat := List.replicate 16 2

def d32 : List Nat := List.replicate 32 7

def r16 : List Nat := List.replicate 16 3

def r16b : List Nat := List.replicate 16 10

def rs16 : List Nat := List.replicate 16 4

def rs16b : List Nat := List.replicate 16 8

def ivA : List Nat := List.replicate 12 5

def ivB : List Nat := List.replicate 12 6

def ivC : List Nat := List.replicate 12 9

/-- A state produced by a concrete successful `enableVaultFirstTime`. -/
def stE : VaultState :=
  match enableVaultFirstTime st0 "password123" 0 s16 d32 r16 rs16 ivA ivB with
  | .ok st _ => st
  | .err st _ => st

/-- The recovery code returned by that concrete enable. -/
def codeE : String := generateRecoveryCode r16

/-- The metadata persisted by that concrete enable. -/
def metaE : VaultMeta :=
  stE.store.getD
    ⟨false, 0, ⟨"", "", 0, []⟩, ⟨0, []⟩,
      ⟨⟨[], ⟨.raw [], [], "", .bytes []⟩⟩, ⟨[], ⟨.raw [], [], "", .bytes []⟩⟩⟩,
      ⟨"", 0, 0⟩, 0⟩

/-- `lockNow` applied after the concrete enable: enabled but Locked. -/
def stL : VaultState := lockNow stE

/-- A small enabled metadata record used as pre-existing store content. -/
def metaJunk : VaultMeta :=
  ⟨true, 99, ⟨"PBKDF2", "SHA-256", 150000, []⟩, ⟨150000, []⟩,
    ⟨⟨[], ⟨.raw [], [], "", .bytes []⟩⟩, ⟨[], ⟨.raw [], [], "", .bytes []⟩⟩⟩,
    ⟨"AES-GCM", 12, 256⟩, 15⟩

/-! ## Round-trip of the base64url codec -/

/-! ### Round-trip of the codec -/

/-- Induction along the 3-byte chunking used by `btoa`. -/
theorem chunk3Induction {P : List Nat → Prop} (h0 : P []) (h1 : ∀ a, P [a])
    (h2 : ∀ a b, P [a, b])
    (h3 : ∀ a b c rest, P rest → P (a :: b :: c :: rest)) :
    ∀ l, P l
  | [] => h0
  | [a] => h1 a
  | [a, b] => h2 a b
  | a :: b :: c :: rest => h3 a b c rest (chunk3Induction h0 h1 h2 h3 rest)

theorem base64Inv_base64Char : ∀ n < 64, base64Inv (base64Char n) = n := by decide

theorem base64Char_ne61 (n : Nat) : base64Char n ≠ 61 := by
  unfold base64Char; split_ifs <;> omega

theorem base64Char_beq61 (n : Nat) : (base64Char n == 61) = false := by
  simpa using base64Char_ne61 n

theorem base64Char_urlRoundtrip (n : Nat) :
    fromUrlSafe (toUrlSafe (base64Char n)) = base64Char n := by
  unfold base64Char toUrlSafe fromUrlSafe; split_ifs <;> omega

theorem toUrlSafe_eq61 (c : Nat) : toUrlSafe c = 61 ↔ c = 61 := by
  unfold toUrlSafe; split_ifs <;> omega

/-- Decoding inverts encoding, before the URL-safe substitution layer. -/
theorem atob_btoa : ∀ l : List Nat, (∀ x ∈ l, x < 256) → atob (btoa l) = l := by
  refine chunk3Induction ?_ ?_ ?_ ?_
  · intro _; rfl
  · intro a h
    have ha : a < 256 := h a (by simp)
    have e0 := base64Inv_base64Char (a / 4) (by omega)
    have e1 := base64Inv_base64Char (a % 4 * 16) (by omega)
    simp [btoa, atob, e0, e1]
    omega
  · intro a b h
    have ha : a < 256 := h a (by simp)
    have hb : b < 256 := h b (by simp)
    have e0 := base64Inv_base64Char (a / 4) (by omega)
    have e1 := base64Inv_base64Char (a % 4 * 16 + b / 16) (by omega)
    have e2 := base64Inv_base64Char (b % 16 * 4) (by omega)
    simp [btoa, atob, base64Char_ne61, e0, e1, e2]
    omega
  · intro a b c rest ih h
    have ha : a < 256 := h a (by simp)
    have hb : b < 256 := h b (by simp)
    have hc : c < 256 := h c (by simp)
    have e0 := base64Inv_base64Char (a / 4) (by omega)
    have e1 := base64Inv_base64Char (a % 4 * 16 + b / 16) (by omega)
    have e2 := base64Inv_base64Char (b % 16 * 4 + c / 64) (by omega)
    have e3 := base64Inv_base64Char (c % 64) (by omega)
    have ihr : atob (btoa rest) = rest := ih fun x hx => h x (by simp [hx])
    simp [btoa, atob, base64Char_ne61, e0, e1, e2, e3, ihr]
    omega

theorem dropWhile_append_left (p : Nat → Bool) : ∀ l1 l2 : List Nat,
    List.dropWhile p l1 ≠ [] →
    List.dropWhile p (l1 ++ l2) = List.dropWhile p l1 ++ l2 := by
  intro l1
  induction l1 with
  | nil => intro l2 h; simp [List.dropWhile] at h
  | cons a t ih =>
    intro l2 h
    by_cases hp : p a = true
    · simp only [List.dropWhile_cons, hp, if_true, List.cons_append] at h ⊢
      exact ih l2 h
    · simp [List.dropWhile_cons, hp]

theorem mem_dropWhile (p : Nat → Bool) : ∀ l : List Nat, ∀ c ∈ List.dropWhile p l, c ∈ l := by
  intro l
  induction l with
  | nil => intro c hc; simp at hc
  | cons a t ih =>
    intro c hc
    by_cases hp : p a = true
    · simp only [List.dropWhile_cons, hp, if_true] at hc
      exact List.mem_cons_of_mem a (ih c hc)
    · simpa [List.dropWhile_cons, hp] using hc

theorem mem_of_mem_stripTrailingEq {c : Nat} {l : List Nat}
    (h : c ∈ stripTrailingEq l) : c ∈ l := by
  unfold stripTrailingEq at h
  rw [List.mem_reverse] at h
  have := mem_dropWhile (· == 61) l.reverse c h
  rwa [List.mem_reverse] at this

theorem dropWhile61_map (f : Nat → Nat) (hf : ∀ c, f c = 61 ↔ c = 61) (l : List Nat) :
    List.dropWhile (· == 61) (l.map f) = (List.dropWhile (· == 61) l).map f := by
  induction l with
  | nil => rfl
  | cons a t ih =>
    by_cases h : a = 61
    · subst h
      have hfa : f 61 = 61 := (hf 61).2 rfl
      simp [List.dropWhile_cons, hfa, ih]
    · have hfa : f a ≠ 61 := fun e => h ((hf a).1 e)
      simp [List.dropWhile_cons, h, hfa]

theorem stripTrailingEq_map (f : Nat → Nat) (hf : ∀ c, f c = 61 ↔ c = 61)
    (l : List Nat) :
    stripTrailingEq (l.map f) = (stripTrailingEq l).map f := by
  unfold stripTrailingEq
  rw [← List.map_reverse, dropWhile61_map f hf, List.map_reverse]

theorem btoa_head : ∀ l : List Nat, l ≠ [] → ∃ n t, btoa l = base64Char n :: t := by
  intro l hl
  cases l with
  | nil => exact absurd rfl hl
  | cons a t =>
    cases t with
    | nil => exact ⟨a / 4, _, rfl⟩
    | cons b t2 =>
      cases t2 with
      | nil => exact ⟨a / 4, _, rfl⟩
      | cons c r => exact ⟨a / 4, _, rfl⟩

theorem stripTrailingEq_btoa_ne_nil (l : List Nat) (hl : l ≠ []) :
    stripTrailingEq (btoa l) ≠ [] := by
  obtain ⟨n, t, hbt⟩ := btoa_head l hl
  intro hstrip
  unfold stripTrailingEq at hstrip
  rw [List.reverse_eq_nil_iff, List.dropWhile_eq_nil_iff] at hstrip
  have : base64Char n ∈ (btoa l).reverse := by
    rw [List.mem_reverse, hbt]; exact List.mem_cons_self _ _
  have := hstrip _ this
  simp at this
  exact base64Char_ne61 n this

theorem padEq_cons4 (a b c d : Nat) (m : List Nat) :
    padEq (a :: b :: c :: d :: m) = a :: b :: c :: d :: padEq m := by
  unfold padEq
  have hlen : (4 - (a :: b :: c :: d :: m).length % 4) % 4
      = (4 - m.length % 4) % 4 := by
    simp [List.length_cons]; omega
  rw [hlen]
  simp

theorem stripTrailingEq_append4 (a b c d : Nat) (t : List Nat)
    (ht : stripTrailingEq t ≠ []) :
    stripTrailingEq (a :: b :: c :: d :: t) = a :: b :: c :: d :: stripTrailingEq t := by
  unfold stripTrailingEq at ht ⊢
  have hd : t.reverse.dropWhile (· == 61) ≠ [] := by
    intro h; rw [h] at ht; simp at ht
  have hrev : (a :: b :: c :: d :: t).reverse = t.reverse ++ [d, c, b, a] := by
    simp
  rw [hrev, dropWhile_append_left _ _ _ hd]
  simp

/-- Re-padding after stripping restores exactly the `btoa` output. -/
theorem padEq_stripTrailingEq_btoa : ∀ l : List Nat,
    padEq (stripTrailingEq (btoa l)) = btoa l := by
  refine chunk3Induction rfl ?_ ?_ ?_
  · intro a
    simp [btoa, stripTrailingEq, padEq, List.dropWhile, base64Char_beq61]
  · intro a b
    simp [btoa, stripTrailingEq, padEq, List.dropWhile, base64Char_beq61]
  · intro a b c rest ih
    rcases eq_or_ne rest [] with hrest | hrest
    · subst hrest
      simp [btoa, stripTrailingEq, padEq, List.dropWhile, base64Char_beq61]
    · have hne := stripTrailingEq_btoa_ne_nil rest hrest
      simp only [btoa]
      rw [stripTrailingEq_append4 _ _ _ _ _ hne, padEq_cons4, ih]

theorem btoa_elem_url : ∀ l : List Nat, ∀ c ∈ btoa l,
    fromUrlSafe (toUrlSafe c) = c := by
  refine chunk3Induction ?_ ?_ ?_ ?_
  · intro c hc; simp [btoa] at hc
  · intro a x hx
    simp [btoa] at hx
    rcases hx with rfl | rfl | rfl
    · exact base64Char_urlRoundtrip _
    · exact base64Char_urlRoundtrip _
    · decide
  · intro a b x hx
    simp [btoa] at hx
    rcases hx with rfl | rfl | rfl | rfl
    · exact base64Char_urlRoundtrip _
    · exact base64Char_urlRoundtrip _
    · exact base64Char_urlRoundtrip _
    · decide
  · intro a b c rest ih x hx
    simp [btoa] at hx
    rcases hx with rfl | rfl | rfl | rfl | hx
    · exact base64Char_urlRoundtrip _
    · exact base64Char_urlRoundtrip _
    · exact base64Char_urlRoundtrip _
    · exact base64Char_urlRoundtrip _
    · exact ih x hx

/-! ## Helper lemmas -/

theorem unwrap_wrap (kek : GcmKey) (iv d : List Nat) (aad : String) :
    unwrapDEKBytes kek (wrapDEKBytes kek iv d aad) aad = .ok d := by
  simp [unwrapDEKBytes, wrapDEKBytes, aesGcmEncrypt, aesGcmDecrypt,
    subtleEncrypt, subtleDecrypt, Plain.toBytes, Except.map]

theorem unwrap_ok_elim {kek : GcmKey} {w : Wrap} {aad : String} {d : List Nat}
    (h : unwrapDEKBytes kek w aad = .ok d) :
    w.ct.key = kek ∧ w.ct.iv = w.iv ∧ w.ct.aad = aad ∧ w.ct.pt.toBytes = d := by
  unfold unwrapDEKBytes aesGcmDecrypt subtleDecrypt at h
  by_cases hc : w.ct.key = kek ∧ w.ct.iv = w.iv ∧ w.ct.aad = aad
  · rw [if_pos hc] at h
    simp [Except.map] at h
    exact ⟨hc.1, hc.2.1, hc.2.2, h⟩
  · rw [if_neg hc] at h
    simp [Except.map] at h

theorem unwrap_err_of_key_ne {kek : GcmKey} {w : Wrap} {aad : String}
    (h : w.ct.key ≠ kek) :
    unwrapDEKBytes kek w aad = .error "OperationError" := by
  simp [unwrapDEKBytes, aesGcmDecrypt, subtleDecrypt, h, Except.map]

/-- Successful passphrase unlock: sufficient conditions. -/
theorem unlock_ok_of {st : VaultState} {meta : VaultMeta} {pass : String}
    {d : List Nat} (hst : st.store = some meta) (hen : meta.enabled = true)
    (hun : unwrapDEKBytes (deriveKEK pass meta.kdf.salt meta.kdf.iterations)
      meta.wraps.pass dekAAD = .ok d) :
    unlockWithPassphrase st pass
      = .ok { st with dek := some (importKey d false), idleTimerSet := true }
          true := by
  simp [unlockWithPassphrase, loadVaultMeta, hst, hen, hun, resetIdleTimer]

/-- Failing passphrase unlock: the unwrap failure surfaces as
`Wrong passphrase.` with the state untouched. -/
theorem unlock_err_of {st : VaultState} {meta : VaultMeta} {pass : String}
    {e : String} (hst : st.store = some meta) (hen : meta.enabled = true)
    (hun : unwrapDEKBytes (deriveKEK pass meta.kdf.salt meta.kdf.iterations)
      meta.wraps.pass dekAAD = .error e) :
    unlockWithPassphrase st pass = .err st "Wrong passphrase." := by
  simp [unlockWithPassphrase, loadVaultMeta, hst, hen, hun]

/-- Successful recovery unlock: sufficient conditions. -/
theorem unlockRec_ok_of {st : VaultState} {meta : VaultMeta} {code : String}
    {d : List Nat} (hst : st.store = some meta) (hen : meta.enabled = true)
    (hun : unwrapDEKBytes (deriveKEK code meta.recovery.salt meta.recovery.iterations)
      meta.wraps.recovery dekAAD = .ok d) :
    unlockWithRecoveryCode st code
      = .ok { st with dek := some (importKey d false), idleTimerSet := true }
          true := by
  simp [unlockWithRecoveryCode, loadVaultMeta, hst, hen, hun, resetIdleTimer]

/-- Failing recovery unlock. -/
theorem unlockRec_err_of {st : VaultState} {meta : VaultMeta} {code : String}
    {e : String} (hst : st.store = some meta) (hen : meta.enabled = true)
    (hun : unwrapDEKBytes (deriveKEK code meta.recovery.salt meta.recovery.iterations)
      meta.wraps.recovery dekAAD = .error e) :
    unlockWithRecoveryCode st code = .err st "Wrong Recovery Code." := by
  simp [unlockWithRecoveryCode, loadVaultMeta, hst, hen, hun]

/-! ## The claims -/

/-- C10: the URL-safe base64 codec is a faithful round-trip — for every
finite byte sequence `b`, `b64uToBuf (b64u b)` returns exactly `b`: the
`'+'`/`'/'` to `'-'`/`'_'` substitution and the padding stripping performed
by `b64u` are fully inverted by `b64uToBuf`, so every encode of salts, IVs,
ciphertexts and wraps is decodable without loss. -/
theorem C10_b64u_roundtrip (bytes : List Nat) (h : ∀ x ∈ bytes, x < 256) :
    b64uToBuf (b64u bytes) = bytes := by
  unfold b64u b64uToBuf
  rw [stripTrailingEq_map toUrlSafe toUrlSafe_eq61]
  rw [List.map_map]
  have hm : List.map (fromUrlSafe ∘ toUrlSafe) (stripTrailingEq (btoa bytes))
      = List.map id (stripTrailingEq (btoa bytes)) :=
    List.map_congr_left fun a ha =>
      btoa_elem_url bytes a (mem_of_mem_stripTrailingEq ha)
  rw [hm, List.map_id, padEq_stripTrailingEq_btoa, atob_btoa bytes h]

/-- Witness for C10 at a concrete byte list exercising `'+'`, `'/'` and
both padding lengths. -/
theorem C10_b64u_roundtrip_witness :
    (∀ x ∈ [0, 1, 77, 255, 62, 63, 128], x < 256) ∧
    b64uToBuf (b64u [0, 1, 77, 255, 62, 63, 128]) = [0, 1, 77, 255, 62, 63, 128] :=
  ⟨by decide, C10_b64u_roundtrip [0, 1, 77, 255, 62, 63, 128] (by decide)⟩

/-- C2: entry round-trip — while a DEK is cached (Unlocked),
`decryptEntryBody` applied with the same table, entryId and version to the
`{iv, ciphertext}` produced by `encryptEntryBody` for a plaintext `body`
returns exactly `body`. -/
theorem C2_entry_roundtrip (st : VaultState) (dk : DekKey)
    (table entryId : String) (version : Nat) (body : String) (iv : List Nat)
    (st1 : VaultState) (enc : EntryCipher)
    (hdek : st.dek = some dk)
    (henc : encryptEntryBody st table entryId version body iv = .ok st1 enc) :
    decryptEntryBody st1 table entryId version enc.iv enc.ct = .ok st1 body := by
  unfold encryptEntryBody at henc
  simp only [hdek] at henc
  injection henc with h1 h2
  subst h1
  rw [← h2]
  simp [decryptEntryBody, hdek, subtleDecrypt, subtleEncrypt, textDecode]

/-- Witness for C2 on the concretely enabled vault. -/
theorem C2_entry_roundtrip_witness :
    stE.dek = some (importKey d32 false) ∧
    encryptEntryBody stE "prayers" "42" 1 "dear diary" ivC
      = .ok stE ⟨ivC, subtleEncrypt (.raw d32) ivC (entryAAD "prayers" "42" 1)
                  (.str "dear diary"), 1⟩ ∧
    decryptEntryBody stE "prayers" "42" 1 ivC
      (subtleEncrypt (.raw d32) ivC (entryAAD "prayers" "42" 1) (.str "dear diary"))
      = .ok stE "dear diary" := by
  refine ⟨by decide, by decide, ?_⟩
  exact C2_entry_roundtrip stE (importKey d32 false) "prayers" "42" 1 "dear diary"
    ivC stE
    ⟨ivC, subtleEncrypt (.raw d32) ivC (entryAAD "prayers" "42" 1)
      (.str "dear diary"), 1⟩ (by decide) (by decide)

/-- C3 is false as stated: the associated data is the colon-joined string
`table:entryId:version`, so two distinct identity tuples whose renderings
coincide are not distinguished.  Concretely, a ciphertext produced under
`("a", "b:c", 1)` decrypts successfully under the different tuple
`("a:b", "c", 1)` instead of failing with an authentication error. -/
theorem C3_counterexample :
    (("a", "b:c", 1) : String × String × Nat) ≠ ("a:b", "c", 1) ∧
    encryptEntryBody stE "a" "b:c" 1 "secret" ivA
      = .ok stE ⟨ivA, subtleEncrypt (.raw d32) ivA "a:b:c:1" (.str "secret"), 1⟩ ∧
    decryptEntryBody stE "a:b" "c" 1 ivA
      (subtleEncrypt (.raw d32) ivA "a:b:c:1" (.str "secret"))
      = .ok stE "secret" :=
  ⟨by decide, by decide, by decide⟩

/-- C3 (amended): for every ciphertext produced by `encryptEntryBody` under
identity tuple `(table, entryId, version)`, a call to `decryptEntryBody`
with another identity tuple fails with the AES-GCM authentication error
whenever the two formatted associated-data strings
`table:entryId:version` differ — i.e. for all pairs of tuples whose
colon-joined renderings are distinct, not only those differing in
`entryId`. -/
theorem C3_identity_binding (st : VaultState) (dk : DekKey)
    (table entryId : String) (version : Nat) (body : String) (iv : List Nat)
    (st1 : VaultState) (enc : EntryCipher)
    (table2 entryId2 : String) (version2 : Nat)
    (hdek : st.dek = some dk)
    (henc : encryptEntryBody st table entryId version body iv = .ok st1 enc)
    (hne : entryAAD table entryId version ≠ entryAAD table2 entryId2 version2) :
    decryptEntryBody st1 table2 entryId2 version2 enc.iv enc.ct
      = .err st1 "OperationError" := by
  unfold encryptEntryBody at henc
  simp only [hdek] at henc
  injection henc with h1 h2
  subst h1
  rw [← h2]
  simp [decryptEntryBody, hdek, subtleDecrypt, subtleEncrypt, hne]

/-- Witness for the amended C3: same entryId and version, different table. -/
theorem C3_identity_binding_witness :
    stE.dek = some (importKey d32 false) ∧
    encryptEntryBody stE "alpha" "1" 1 "text" ivA
      = .ok stE ⟨ivA, subtleEncrypt (.raw d32) ivA (entryAAD "alpha" "1" 1)
                  (.str "text"), 1⟩ ∧
    entryAAD "alpha" "1" 1 ≠ entryAAD "beta" "1" 1 ∧
    decryptEntryBody stE "beta" "1" 1 ivA
      (subtleEncrypt (.raw d32) ivA (entryAAD "alpha" "1" 1) (.str "text"))
      = .err stE "OperationError" := by
  refine ⟨by decide, by decide, by decide, ?_⟩
  exact C3_identity_binding stE (importKey d32 false) "alpha" "1" 1 "text" ivA stE
    ⟨ivA, subtleEncrypt (.raw d32) ivA (entryAAD "alpha" "1" 1) (.str "text"), 1⟩
    "beta" "1" 1 (by decide) (by decide) (by decide)

/-- C7: weak-passphrase atomicity — for every passphrase shorter than 8
characters (including the empty one), `enableVaultFirstTime` fails with the
weak-secret error before any key material is generated, and the returned
state is exactly the input state: the metadata store is unchanged (absent
stays absent) and no DEK is cached by the call. -/
theorem C7_weak_passphrase_atomic (st : VaultState) (pass : String) (now : Nat)
    (saltBytes dekBytes recBytes recSaltBytes passIv recIv : List Nat)
    (hweak : pass.length < 8) :
    enableVaultFirstTime st pass now saltBytes dekBytes recBytes recSaltBytes
      passIv recIv
      = .err st "Passphrase must be at least 8 characters." := by
  unfold enableVaultFirstTime
  rw [if_pos (Or.inr hweak)]

/-- Witness for C7 at the spec's own example `"short"`. -/
theorem C7_weak_passphrase_atomic_witness :
    ("short" : String).length < 8 ∧
    enableVaultFirstTime st0 "short" 0 s16 d32 r16 rs16 ivA ivB
      = .err st0 "Passphrase must be at least 8 characters." :=
  ⟨by decide, C7_weak_passphrase_atomic st0 "short" 0 s16 d32 r16 rs16 ivA ivB
    (by decide)⟩

/-- C4: wrong-secret rejection is side-effect free — for every enabled
vault and every passphrase whose derived KEK fails to unwrap
`wraps.pass`, `unlockWithPassphrase` fails with the wrong-secret error and
the returned state is exactly the input state (persisted metadata
unchanged, no DEK cached, so the session stays Locked), and a subsequent
unlock with the correct passphrase still succeeds. -/
theorem C4_wrong_secret_no_side_effects (st : VaultState) (meta : VaultMeta)
    (wrong : String) (e : String)
    (hst : st.store = some meta) (hen : meta.enabled = true)
    (hfail : unwrapDEKBytes (deriveKEK wrong meta.kdf.salt meta.kdf.iterations)
      meta.wraps.pass dekAAD = .error e) :
    unlockWithPassphrase st wrong = .err st "Wrong passphrase." ∧
    ∀ pass recCode dek, WrapsConsistent meta pass recCode dek →
      unlockWithPassphrase st pass
        = .ok { st with dek := some (importKey dek false), idleTimerSet := true }
            true :=
  ⟨unlock_err_of hst hen hfail,
   fun _pass _recCode _dek hcons => unlock_ok_of hst hen hcons.2.2.1⟩

/-- Witness for C4 on the concretely enabled vault. -/
theorem C4_wrong_secret_no_side_effects_witness :
    stE.store = some metaE ∧ metaE.enabled = true ∧
    unwrapDEKBytes (deriveKEK "totally-wrong" metaE.kdf.salt metaE.kdf.iterations)
      metaE.wraps.pass dekAAD = .error "OperationError" ∧
    unlockWithPassphrase stE "totally-wrong" = .err stE "Wrong passphrase." ∧
    unlockWithPassphrase stE "password123"
      = .ok { stE with dek := some (importKey d32 false), idleTimerSet := true }
          true := by
  have h := C4_wrong_secret_no_side_effects stE metaE "totally-wrong"
    "OperationError" (by decide) (by decide) (by decide)
  exact ⟨by decide, by decide, by decide, h.1,
    h.2 "password123" codeE d32 ⟨by decide, by decide, by decide, by decide⟩⟩

/-- C8 (implicit): `enableVaultFirstTime` performs no already-enabled
check — for every prior state of the metadata store, including an enabled
vault, a call with a passphrase of length ≥ 8 succeeds, caches the freshly
generated DEK, and unconditionally overwrites the stored `VaultMetadata`
with a record built solely from the call's fresh key material (so the
previously wrapped DEK is irrecoverably replaced). -/
theorem C8_enable_overwrites (st : VaultState) (pass : String) (now : Nat)
    (saltBytes dekBytes recBytes recSaltBytes passIv recIv : List Nat)
    (hlen : 8 ≤ pass.length) :
    enableVaultFirstTime st pass now saltBytes dekBytes recBytes recSaltBytes
      passIv recIv
      = .ok
        { store := some
            { enabled := true
              createdAt := now
              kdf := ⟨"PBKDF2", "SHA-256", 150000, b64u saltBytes⟩
              recovery := ⟨150000, b64u recSaltBytes⟩
              wraps :=
                ⟨wrapDEKBytes (deriveKEK pass (b64u saltBytes) 150000) passIv
                    dekBytes dekAAD,
                  wrapDEKBytes
                    (deriveKEK (generateRecoveryCode recBytes) (b64u recSaltBytes)
                      150000) recIv dekBytes dekAAD⟩
              cipher := ⟨"AES-GCM", 12, 256⟩
              idleMinutes := st.idleMin }
          dek := some (importKey dekBytes false)
          idleMin := st.idleMin
          idleTimerSet := true }
        (generateRecoveryCode recBytes) := by
  have hne : ¬(pass = "" ∨ pass.length < 8) := by
    rintro (rfl | hlt)
    · exact absurd hlen (by decide)
    · omega
  unfold enableVaultFirstTime
  rw [if_neg hne]
  simp [saveVaultMeta, resetIdleTimer]

/-- Witness for C8: enabling over an already-enabled store succeeds and
replaces it wholesale. -/
theorem C8_enable_overwrites_witness :
    8 ≤ ("longpassword" : String).length ∧
    enableVaultFirstTime ⟨some metaJunk, none, 15, false⟩ "longpassword" 5 s16 d32
      r16 rs16 ivA ivB
      = .ok
        { store := some
            { enabled := true
              createdAt := 5
              kdf := ⟨"PBKDF2", "SHA-256", 150000, b64u s16⟩
              recovery := ⟨150000, b64u rs16⟩
              wraps :=
                ⟨wrapDEKBytes (deriveKEK "longpassword" (b64u s16) 150000) ivA d32
                    dekAAD,
                  wrapDEKBytes
                    (deriveKEK (generateRecoveryCode r16) (b64u rs16) 150000) ivB
                    d32 dekAAD⟩
              cipher := ⟨"AES-GCM", 12, 256⟩
              idleMinutes := 15 }
          dek := some (importKey d32 false)
          idleMin := 15
          idleTimerSet := true }
        (generateRecoveryCode r16) :=
  ⟨by decide, C8_enable_overwrites ⟨some metaJunk, none, 15, false⟩ "longpassword"
    5 s16 d32 r16 rs16 ivA ivB (by decide)⟩

/-- C9 (implicit): `changePassphrase` validates the new passphrase only
after unlocking with the old one — called while Locked with the correct old
passphrase and a new passphrase shorter than 8 characters, it raises the
weak-secret error, yet the error state has the DEK cached and the idle
timer scheduled (the session has become Unlocked) while the stored
`VaultMetadata` is unchanged: the failing call has a session-state side
effect. -/
theorem C9_weak_new_passphrase_leaves_unlocked (st : VaultState)
    (meta : VaultMeta) (pass recCode : String) (dek : List Nat)
    (newPass : String) (newSaltBytes newIv : List Nat)
    (hst : st.store = some meta) (hcons : WrapsConsistent meta pass recCode dek)
    (_hlocked : st.dek = none) (hweak : newPass.length < 8) :
    changePassphrase st pass newPass newSaltBytes newIv
      = .err { st with dek := some (importKey dek false), idleTimerSet := true }
          "New passphrase must be at least 8 characters." := by
  simp only [changePassphrase, unlock_ok_of hst hcons.1 hcons.2.2.1]
  rw [if_pos (Or.inr hweak)]

/-- Witness for C9 on the concretely enabled vault, after `lockNow`. -/
theorem C9_weak_new_passphrase_leaves_unlocked_witness :
    stL.store = some metaE ∧ stL.dek = none ∧ ("short" : String).length < 8 ∧
    changePassphrase stL "password123" "short" s16b ivC
      = .err { stL with dek := some (importKey d32 false), idleTimerSet := true }
          "New passphrase must be at least 8 characters." := by
  refine ⟨by decide, by decide, by decide, ?_⟩
  exact C9_weak_new_passphrase_leaves_unlocked stL metaE "password123" codeE d32
    "short" s16b ivC (by decide) ⟨by decide, by decide, by decide, by decide⟩
    (by decide) (by decide)

/-- C1: the dual-wrap invariant is established by `enableVaultFirstTime`
(both wraps present, both decrypting under their correctly derived KEKs to
the same 32-byte DEK), but the two operations the claim says preserve it —
`changePassphrase` and `regenerateRecoveryCode` — can never succeed in the
program: every assignment to `_dek` imports it with `extractable = false`,
so their `crypto.subtle.exportKey('raw', _dek)` step always throws
`InvalidAccessError` before anything is rewrapped or persisted.  On the
concretely enabled vault: the invariant holds after enable, and both
"preserving" calls throw at the export step, leaving the state untouched. -/
theorem C1_dual_wrap_code_bug :
    (∃ meta, stE.store = some meta ∧ WrapsConsistent meta "password123" codeE d32) ∧
    stE.dek = some (importKey d32 false) ∧
    changePassphrase stE "password123" "newpassword1" s16b ivC
      = .err stE "InvalidAccessError" ∧
    regenerateRecoveryCode stE r16b rs16b ivC = .err stE "InvalidAccessError" :=
  ⟨⟨metaE, by decide, by decide, by decide, by decide, by decide⟩,
    by decide, by decide, by decide⟩

/-- C5: in the program, passphrase rotation never succeeds at all — the
claim presupposes a successful `changePassphrase(oldPass, newPass)`, but
the call always throws `InvalidAccessError` at
`crypto.subtle.exportKey('raw', _dek)` (the cached DEK is imported
non-extractable on every path), after unlocking and validating but before
persisting anything.  Concretely: rotation from the enabled vault throws,
the metadata is unchanged (the error state is exactly `stE`), the would-be
new passphrase never unlocks, and the old passphrase still does. -/
theorem C5_rotation_always_throws :
    changePassphrase stE "password123" "newpassword1" s16b ivC
      = .err stE "InvalidAccessError" ∧
    unlockWithPassphrase stE "newpassword1" = .err stE "Wrong passphrase." ∧
    unlockWithPassphrase stE "password123" = .ok stE true :=
  ⟨by decide, by decide, by decide⟩

/-- C6: `regenerateRecoveryCode` does fail when the vault is not Unlocked
(`Unlock the vault first.`), but its claimed Unlocked behaviour — return a
new recovery code and persist a fresh recovery salt and wrap — never
happens in the program: with a DEK cached (always imported with
`extractable = false`), the call throws `InvalidAccessError` at
`crypto.subtle.exportKey('raw', _dek)` and persists nothing. -/
theorem C6_regenerate_always_throws :
    regenerateRecoveryCode stL r16b rs16b ivC
      = .err stL "Unlock the vault first." ∧
    stE.dek = some (importKey d32 false) ∧
    regenerateRecoveryCode stE r16b rs16b ivC = .err stE "InvalidAccessError" ∧
    loadVaultMeta stE = some metaE :=
  ⟨by decide, by decide, by decide, by decide⟩


end Vault
